import Mathlib

/-!
Verification of the filtering/aggregation core of the proc_dash dashboard
(src/proc_dash/app.py and the utility/plotting helpers it calls).

The data model: the uploaded bagel.csv is parsed into a long-format table
(one row per participant/session/pipeline processing outcome), aggregated
into a wide-format overview table (one row per participant-session, one
status column per pipeline), filtered by session selections (AND/OR) and
per-pipeline status selections, counted, and reshaped back to long format
for the bar charts.

Functions defined in src/proc_dash/app.py (process_bagel, update_outputs,
update_matching_rows, create_pipeline_status_dropdowns,
generate_overview_status_fig_for_participants,
update_overview_status_fig_for_records) are embedded directly from that
source.  The helpers from proc_dash.utility and proc_dash.plotting are not
part of the available source tree; each such definition carries a doc
comment starting with `Modelled from the spec:` and is written from the
specification's description (and, for the AND/OR session semantics, from
the operator tooltips declared in app.py's layout).
-/

/-- One row of the parsed long-format bagel table: a single
participant/session/pipeline processing outcome. -/
structure BagelRow where
  participant_id : String
  session : String
  pipeline : String
  pipeline_complete : String
deriving DecidableEq, Repr

/-- The parsed long-format table. -/
abbrev Bagel := List BagelRow

/-- One row of the wide-format overview table: a participant-session pair
together with one status entry per pipeline column. -/
structure OverviewRow where
  participant_id : String
  session : String
  statuses : List (String × String)
deriving DecidableEq, Repr

/-- The overview store (`memory-overview`): schema type plus the overview
table records, as stored by process_bagel. -/
structure ParsedData where
  type : String
  data : List OverviewRow
deriving DecidableEq, Repr

/-- A datatable column descriptor, as produced by update_outputs:
`{"name": i, "id": i, "hideable": True}`. -/
structure ColumnDescriptor where
  name : String
  id : String
  hideable : Bool
deriving DecidableEq, Repr

/-- One row of the long-format reshaping used for the records status chart. -/
structure LongRow where
  participant_id : String
  session : String
  pipeline_name : String
  pipeline_complete : String
deriving DecidableEq, Repr

/-- The distinct participant-session-pipeline combinations occurring in a
long-format bagel table. -/
def bagelKeys (bagel : Bagel) : List (String × String × String) :=
  (bagel.map fun r => (r.participant_id, r.session, r.pipeline)).dedup

/-- The distinct participant-session pairs occurring in a long-format bagel
table, in order of first occurrence. -/
def recordKeys (bagel : Bagel) : List (String × String) :=
  (bagel.map fun r => (r.participant_id, r.session)).dedup

/-- The distinct pipeline names occurring in a long-format bagel table, in
order of first occurrence. -/
def pipelineNames (bagel : Bagel) : List String :=
  (bagel.map fun r => r.pipeline).dedup

/-- The status recorded in the bagel for a participant-session-pipeline
combination (the first matching row's status; `UNAVAILABLE` when absent). -/
def statusFor (bagel : Bagel) (sub ses pipeline : String) : String :=
  match bagel.find? fun r =>
      r.participant_id == sub && r.session == ses && r.pipeline == pipeline with
  | some r => r.pipeline_complete
  | none => "UNAVAILABLE"

/-- Modelled from the spec: util.get_pipelines_overview is not in the
available source tree.  Per the spec it is "a overview/aggregation step"
whose result is the "overview table: the wide-format table shown in the
main UI, one row per participant-session" with one status column per
pipeline (app.py treats the pipeline names as columns of this table when
disabling their native filters and when querying `pipeline == status`). -/
def get_pipelines_overview (bagel : Bagel) : List OverviewRow :=
  (recordKeys bagel).map fun k =>
    { participant_id := k.1
      session := k.2
      statuses := (pipelineNames bagel).map fun p => (p, statusFor bagel k.1 k.2 p) }

/-- Modelled from the spec: util.extract_pipelines is not in the available
source tree.  It splits the long bagel into "pipeline-specific metadata as
individual dataframes within a dict" (process_bagel docstring), keyed by
pipeline name. -/
def extract_pipelines (bagel : Bagel) : List (String × Bagel) :=
  (pipelineNames bagel).map fun p => (p, bagel.filter fun r => r.pipeline == p)

/-- The per-pipeline status-equality predicate of the filter: for each
pipeline with a selected (non-None) status, the row's status column for
that pipeline must equal the selection. -/
def statusOk (status_values : List (String × Option String)) (r : OverviewRow) : Bool :=
  status_values.all fun pv =>
    match pv.2 with
    | none => true
    | some s => r.statuses.lookup pv.1 == some s

/-- The session-set predicate of the filter, evaluated for one row against
the whole table.  With no sessions selected it is vacuous.  Under OR, the
row's session is any of the selected ones.  Under AND (per the operator
tooltip in app.py: "All selected sessions are present and match the
pipeline-level filter"), the row's session is selected and the row's
participant has, for every selected session, a row with that session
passing the pipeline-level status filter. -/
def sessionOk (data : List OverviewRow) (session_values : List String)
    (operator_value : String) (status_values : List (String × Option String))
    (r : OverviewRow) : Bool :=
  if session_values.isEmpty then
    true
  else if operator_value == "AND" then
    session_values.contains r.session &&
      session_values.all fun s =>
        data.any fun r2 =>
          r2.participant_id == r.participant_id && r2.session == s &&
            statusOk status_values r2
  else
    session_values.contains r.session

/-- Modelled from the spec: util.filter_records is not in the available
source tree.  Per the spec it is "a filter function combining a session-set
predicate (AND/OR) with per-pipeline status-equality predicates": it keeps
exactly the rows satisfying the conjunction of the session-set predicate
(sessionOk, whose AND/OR semantics follow app.py's operator tooltips) and
the per-pipeline status-equality predicate (statusOk). -/
def filter_records (data : List OverviewRow) (session_values : List String)
    (operator_value : String) (status_values : List (String × Option String)) :
    List OverviewRow :=
  data.filter fun r =>
    sessionOk data session_values operator_value status_values r &&
      statusOk status_values r

/-- The columns of a dataframe built from overview-table records
(pd.DataFrame.from_dict of a list of record dicts): the shared keys of the
records, i.e. participant_id, session, and one column per pipeline. -/
def dfColumns (rows : List OverviewRow) : List String :=
  match rows with
  | [] => []
  | r :: _ => "participant_id" :: "session" :: r.statuses.map Prod.fst

/-- update_outputs (app.py): when the overview store is empty, clears the
datatable; otherwise applies filter_records exactly when a session value is
selected or any pipeline status dropdown is non-None, and renders one
hideable column descriptor per column together with the row records. -/
def update_outputs (parsed_data : Option ParsedData) (session_values : List String)
    (session_operator : String) (status_values : List (Option String))
    (pipelines_keys : List String) :
    Option (List ColumnDescriptor) × Option (List OverviewRow) :=
  match parsed_data with
  | none => (none, none)
  | some pd =>
    let data := pd.data
    let data :=
      if !session_values.isEmpty || status_values.any fun v => v.isSome then
        filter_records data session_values session_operator
          (pipelines_keys.zip status_values)
      else
        data
    let cols :=
      (dfColumns data).map fun i => ({ name := i, id := i, hideable := true } : ColumnDescriptor)
    (some cols, some data)

/-- Modelled from the spec: util.count_unique_subjects is not in the
available source tree.  Per the spec the dashboard "count[s] distinct
participant/record keys"; this counts the distinct participant ids of the
visible rows. -/
def count_unique_subjects (rows : List OverviewRow) : Nat :=
  ((rows.map fun r => r.participant_id).dedup).length

/-- Modelled from the spec: util.count_unique_records is not in the
available source tree.  It counts the distinct records (unique
participant-session combinations) of the visible rows. -/
def count_unique_records (rows : List OverviewRow) : Nat :=
  ((rows.map fun r => (r.participant_id, r.session)).dedup).length

/-- update_matching_rows (app.py): when the datatable columns exist and are
non-empty, reports the unique participant and record counts of the visible
(derived virtual) data; otherwise reports empty strings. -/
def update_matching_rows (columns : Option (List ColumnDescriptor))
    (virtual_data : List OverviewRow) : String × String :=
  match columns with
  | none => ("", "")
  | some [] => ("", "")
  | some _ =>
    ("Participants matching filter: " ++ toString (count_unique_subjects virtual_data),
     "Records matching filter: " ++ toString (count_unique_records virtual_data))

/-- Modelled from the spec: plot.transform_active_data_to_long is not in
the available source tree.  Per the spec's glossary the long format has
"one row per participant-session-pipeline-status tuple, used for
aggregation": each wide overview row is melted into one long row per
pipeline status column. -/
def transform_active_data_to_long (rows : List OverviewRow) : List LongRow :=
  rows.flatMap fun r =>
    r.statuses.map fun ps =>
      { participant_id := r.participant_id
        session := r.session
        pipeline_name := ps.1
        pipeline_complete := ps.2 }

/-- The group-by aggregation of update_overview_status_fig_for_records
(app.py): `.groupby(["pipeline_name", "pipeline_complete"]).size()`, one
entry per distinct (pipeline_name, pipeline_complete) group holding the
group's size. -/
def statusCounts (long : List LongRow) : List ((String × String) × Nat) :=
  ((long.map fun r => (r.pipeline_name, r.pipeline_complete)).dedup).map fun g =>
    (g, (long.filter fun r => (r.pipeline_name, r.pipeline_complete) == g).length)

/-- A chart figure, abstracting the plotly figures produced by the
proc_dash.plotting helpers; `Figure.empty` stands for EMPTY_FIGURE_PROPS
= `{"data": [], "layout": {}, "frames": []}`. -/
inductive Figure where
  | empty : Figure
  | participantsPlot (data : List OverviewRow) (session_list : List String) : Figure
  | recordsPlot (status_counts : List ((String × String) × Nat)) : Figure
deriving DecidableEq, Repr

/-- Modelled from the spec: plot.populate_empty_records_pipeline_status_plot
is not in the available source tree.  For an empty visible table it
produces a zero-count entry per pipeline-status combination. -/
def populate_empty_records_pipeline_status_plot (pipelines statuses : List String) :
    List ((String × String) × Nat) :=
  pipelines.flatMap fun p => statuses.map fun s => ((p, s), 0)

/-- The four processing status codes of
util.PIPE_COMPLETE_STATUS_SHORT_DESC (the dropdown options and legend
keys). -/
def PIPE_COMPLETE_STATUS_CODES : List String :=
  ["SUCCESS", "FAIL", "INCOMPLETE", "UNAVAILABLE"]

/-- create_pipeline_status_dropdowns (app.py): one status dropdown per
pipeline key and one disabled-native-filter style per pipeline column plus
the session column — except when the pipelines store is empty or the
uploaded schema type is phenotypic, where no dropdowns and no styles are
produced.  A dropdown is modelled by its pipeline label together with its
status options. -/
def create_pipeline_status_dropdowns (pipelines_dict : Option (List String))
    (parsed_data : ParsedData) :
    List (String × List String) × Option (List String) :=
  match pipelines_dict with
  | none => ([], none)
  | some pipelines =>
    if parsed_data.type == "phenotypic" then
      ([], none)
    else
      (pipelines.map fun p => (p, PIPE_COMPLETE_STATUS_CODES),
       some (pipelines ++ ["session"]))

/-- generate_overview_status_fig_for_participants (app.py): on upload of a
non-phenotypic dataset, shows the per-session participants status figure
and the status legend; otherwise hides both and empties the figure.
Returns (figure, figure style display, legend style display). -/
def generate_overview_status_fig_for_participants (parsed_data : Option ParsedData)
    (session_list : List String) : Figure × String × String :=
  match parsed_data with
  | some pd =>
    if pd.type != "phenotypic" then
      (Figure.participantsPlot pd.data session_list, "block", "block")
    else
      (Figure.empty, "none", "none")
  | none => (Figure.empty, "none", "none")

/-- update_overview_status_fig_for_records (app.py): when the visible
datatable data changes and the upload is not phenotypic, plots the
group-by size of the long-format reshape of the visible rows (or
zero-count placeholders when no row is visible); for a phenotypic upload
or no data, hides the figure and empties its properties.  Returns
(figure, style display). -/
def update_overview_status_fig_for_records (data : Option (List OverviewRow))
    (pipelines_dict : List String) (parsed_data : ParsedData) : Figure × String :=
  match data with
  | none => (Figure.empty, "none")
  | some rows =>
    if parsed_data.type == "phenotypic" then
      (Figure.empty, "none")
    else if !rows.isEmpty then
      (Figure.recordsPlot (statusCounts (transform_active_data_to_long rows)), "block")
    else
      (Figure.recordsPlot
        (populate_empty_records_pipeline_status_plot pipelines_dict
          PIPE_COMPLETE_STATUS_CODES), "block")

/-- An uploaded CSV file: its header columns and its row payload (already
decoded to the long-format fields it carries). -/
structure UploadedCSV where
  columns : List String
  records : Bagel
deriving DecidableEq, Repr

/-- Modelled from the spec: the concrete per-schema required column lists
live in the repository's schemas directory, which is not in the available
source tree.  The imaging schema requires the long-format processing
fields; the phenotypic schema requires the participant/session keys. -/
def requiredColumns (schema : String) : List String :=
  if schema == "imaging" then
    ["participant_id", "session", "pipeline_name", "pipeline_version",
     "pipeline_complete"]
  else
    ["participant_id", "session"]

/-- Modelled from the spec: util.parse_csv_contents is not in the
available source tree.  Per the spec it performs "CSV schema
validation/parsing into a normalized long-format table" ("parse CSV →
validate required columns per schema"): it returns the parsed bagel and no
error when every required column of the selected schema is present, and no
data with an error message otherwise. -/
def parse_csv_contents (contents : UploadedCSV) (schema : String) :
    Option Bagel × Option String :=
  if (requiredColumns schema).all fun c => contents.columns.contains c then
    (some contents.records, none)
  else
    (none, some "The selected file is missing required columns.")

/-- The six outputs of process_bagel.  `none` in filename or export_format
stands for dash's no_update sentinel. -/
structure ProcessBagelResult where
  filename : Option String
  sessions : Option (List String)
  overview : Option ParsedData
  pipelines : Option (List (String × Bagel))
  upload_message : Option String
  export_format : Option String
deriving DecidableEq, Repr

/-- process_bagel (app.py): with no uploaded contents, stores nothing and
prompts for an upload; otherwise parses the triggering upload with
parse_csv_contents under its schema and, on any error, reports it and
stores None for the sessions, overview and pipelines stores while
disabling CSV export; on success stores the session list, the typed
overview records and the per-pipeline dict, clears the message and enables
CSV export. -/
def process_bagel (contents : Option UploadedCSV) (filename : String)
    (schema : String) : ProcessBagelResult :=
  match contents with
  | none =>
    { filename := none
      sessions := none
      overview := none
      pipelines := none
      upload_message := some "Upload a CSV file to begin."
      export_format := none }
  | some csv =>
    match parse_csv_contents csv schema with
    | (some bagel, none) =>
      { filename := some filename
        sessions := some ((bagel.map fun r => r.session).dedup)
        overview := some { type := schema, data := get_pipelines_overview bagel }
        pipelines := some (extract_pipelines bagel)
        upload_message := none
        export_format := some "csv" }
    | (_, some err) =>
      { filename := some filename
        sessions := none
        overview := none
        pipelines := none
        upload_message := some ("Error: " ++ err ++ " Please try again.")
        export_format := some "none" }
    | (none, none) =>
      { filename := some filename
        sessions := none
        overview := none
        pipelines := none
        upload_message := some
          "Error: Something went wrong while processing this file. Please try again."
        export_format := some "none" }

/-! Concrete example data used by counterexamples and witnesses. -/

/-- Example overview row: participant p1, session s1, fmriprep succeeded. -/
def exRowA : OverviewRow := ⟨"p1", "s1", [("fmriprep", "SUCCESS")]⟩

/-- Example overview row: participant p1, session s2, fmriprep succeeded. -/
def exRowB : OverviewRow := ⟨"p1", "s2", [("fmriprep", "SUCCESS")]⟩

/-- Example overview row: participant p2, session s1, fmriprep failed. -/
def exRowC : OverviewRow := ⟨"p2", "s1", [("fmriprep", "FAIL")]⟩

/-- Example long-format bagel: one participant-session processed by two
pipelines. -/
def exBagel : Bagel :=
  [⟨"p1", "s1", "fmriprep", "SUCCESS"⟩, ⟨"p1", "s1", "freesurfer", "FAIL"⟩]

/-! Helper lemmas shared between the claim theorems. -/

/-- The boolean per-pipeline status filter holds exactly when every
selected (pipeline, status) pair is matched by the row's status column. -/
lemma statusOk_iff (f : List (String × Option String)) (r : OverviewRow) :
    statusOk f r = true ↔ ∀ p s, (p, some s) ∈ f → r.statuses.lookup p = some s := by
  unfold statusOk
  rw [List.all_eq_true]
  constructor
  · intro h p s hmem
    have hx := h (p, some s) hmem
    simpa using hx
  · intro h pv hpv
    obtain ⟨p, v⟩ := pv
    cases v with
    | none => simp
    | some s =>
      have hx := h p s hpv
      simpa using hx

/-- The participant-session keys of the pivoted overview table are exactly
the distinct participant-session pairs of the input bagel, in first
occurrence order. -/
lemma overview_keys (bagel : Bagel) :
    (get_pipelines_overview bagel).map (fun r => (r.participant_id, r.session))
      = recordKeys bagel := by
  unfold get_pipelines_overview
  rw [List.map_map]
  have hfun : ((fun r : OverviewRow => (r.participant_id, r.session)) ∘
      fun k : String × String =>
        ({ participant_id := k.1, session := k.2,
           statuses := (pipelineNames bagel).map fun p =>
             (p, statusFor bagel k.1 k.2 p) } : OverviewRow)) = id := by
    funext x
    rfl
  rw [hfun, List.map_id]

/-- With no session selected and no status selected, update_outputs skips
the filter entirely. -/
lemma update_outputs_no_filter (pd : ParsedData) (op : String)
    (status_values : List (Option String)) (pkeys : List String)
    (hstat : ∀ v ∈ status_values, v = none) :
    update_outputs (some pd) [] op status_values pkeys
      = (some ((dfColumns pd.data).map fun i =>
          ({ name := i, id := i, hideable := true } : ColumnDescriptor)),
         some pd.data) := by
  have hany : status_values.any (fun v => v.isSome) = false := by
    rw [List.any_eq_false]
    intro v hv
    rw [hstat v hv]
    simp
  simp [update_outputs, hany]

/-- A row-local filter predicate: the row's session is one of the selected
sessions (vacuously when none is selected) and the row passes every
selected per-pipeline status equality. -/
def row_filter_predicate (sv : List String) (f : List (String × Option String))
    (r : OverviewRow) : Bool :=
  (sv.isEmpty || sv.contains r.session) && statusOk f r

/-- Claim C1: with an active filter (a session selected or any pipeline
status selected), update_outputs returns exactly the filter_records result
on the stored overview, and a row is in that result iff it is a stored row
satisfying the conjunction of the session-set predicate (under the chosen
AND/OR operator) and, for each pipeline with a selected status, equality
of the row's status column with the selection; rows failing any selected
status equality are excluded. -/
theorem C1_update_outputs_filter_conjunction
    (pd : ParsedData) (session_values : List String) (session_operator : String)
    (status_values : List (Option String)) (pipelines_keys : List String)
    (hactive : session_values ≠ [] ∨ ∃ v ∈ status_values, v.isSome = true) :
    (update_outputs (some pd) session_values session_operator status_values
        pipelines_keys).2
      = some (filter_records pd.data session_values session_operator
          (pipelines_keys.zip status_values)) ∧
    ∀ r, r ∈ filter_records pd.data session_values session_operator
            (pipelines_keys.zip status_values)
      ↔ (r ∈ pd.data ∧
          sessionOk pd.data session_values session_operator
            (pipelines_keys.zip status_values) r = true ∧
          ∀ p s, (p, some s) ∈ pipelines_keys.zip status_values →
            r.statuses.lookup p = some s) := by
  constructor
  · have hcond :
        (!session_values.isEmpty || status_values.any fun v => v.isSome) = true := by
      rcases hactive with h | ⟨v, hv, hsome⟩
      · have : session_values.isEmpty = false := by
          cases session_values with
          | nil => exact absurd rfl h
          | cons a l => rfl
        simp [this]
      · have : status_values.any (fun v => v.isSome) = true :=
          List.any_eq_true.mpr ⟨v, hv, hsome⟩
        simp [this]
    simp [update_outputs, hcond]
  · intro r
    rw [filter_records, List.mem_filter]
    rw [Bool.and_eq_true, statusOk_iff]

/-- Witness for C1: a concrete active filter (session s1 under OR with
fmriprep status SUCCESS selected) goes through filter_records. -/
theorem C1_witness :
    (update_outputs (some ⟨"imaging", [exRowA, exRowC]⟩) ["s1"] "OR"
        [some "SUCCESS"] ["fmriprep"]).2
      = some (filter_records [exRowA, exRowC] ["s1"] "OR"
          (["fmriprep"].zip [some "SUCCESS"])) :=
  (C1_update_outputs_filter_conjunction ⟨"imaging", [exRowA, exRowC]⟩ ["s1"] "OR"
    [some "SUCCESS"] ["fmriprep"] (Or.inl (by decide))).1

/-- Claim C2 counterexample: no row-local boolean predicate explains
filter_records — the row (p1, s1) is kept under the AND operator with
sessions s1 and s2 selected when the table also holds (p1, s2), but the
same row is dropped from a table without that sibling row. -/
theorem C2_counterexample :
    ¬ ∃ keep : List String → String → List (String × Option String) →
        OverviewRow → Bool,
      ∀ (data : List OverviewRow) (sv : List String) (op : String)
        (f : List (String × Option String)) (r : OverviewRow),
        r ∈ filter_records data sv op f ↔ (r ∈ data ∧ keep sv op f r = true) := by
  rintro ⟨keep, hkeep⟩
  have h1 := hkeep [exRowA, exRowB] ["s1", "s2"] "AND" [("fmriprep", none)] exRowA
  have h2 := hkeep [exRowA] ["s1", "s2"] "AND" [("fmriprep", none)] exRowA
  have hmem1 : exRowA ∈
      filter_records [exRowA, exRowB] ["s1", "s2"] "AND" [("fmriprep", none)] := by
    decide
  have hmem2 : exRowA ∉
      filter_records [exRowA] ["s1", "s2"] "AND" [("fmriprep", none)] := by
    decide
  have hk : keep ["s1", "s2"] "AND" [("fmriprep", none)] exRowA = true :=
    (h1.mp hmem1).2
  exact hmem2 (h2.mpr ⟨by decide, hk⟩)

/-- Claim C2 (amended): with no session selected, or under the OR
operator, the filter is a boolean row predicate — membership depends only
on the row's own field values; under AND with selected sessions it also
depends on the participant's other rows (see the counterexample). -/
theorem C2_amended_row_predicate :
    (∀ (data : List OverviewRow) (op : String)
        (f : List (String × Option String)) (r : OverviewRow),
      r ∈ filter_records data [] op f ↔ (r ∈ data ∧ statusOk f r = true)) ∧
    (∀ (data : List OverviewRow) (sv : List String)
        (f : List (String × Option String)) (r : OverviewRow),
      r ∈ filter_records data sv "OR" f
        ↔ (r ∈ data ∧ row_filter_predicate sv f r = true)) := by
  have hop : (("OR" : String) == "AND") = false := by decide
  constructor
  · intro data op f r
    rw [filter_records, List.mem_filter]
    simp [sessionOk]
  · intro data sv f r
    rw [filter_records, List.mem_filter]
    unfold row_filter_predicate sessionOk
    by_cases h : sv.isEmpty <;> simp [h, hop]

/-- Claim C3 counterexample: a bagel with one participant-session pair
processed by two pipelines has two distinct participant-session-pipeline
combinations, yet its overview table has a single row. -/
theorem C3_counterexample :
    (get_pipelines_overview exBagel).length ≠ (bagelKeys exBagel).length ∧
    (get_pipelines_overview exBagel).length = 1 ∧
    (bagelKeys exBagel).length = 2 := by
  decide

/-- Claim C3 (amended): the overview/aggregation step produces one output
row per distinct participant-session pair of the parsed input table (the
pipeline dimension becomes columns, not rows). -/
theorem C3_amended_one_row_per_participant_session (bagel : Bagel) :
    (get_pipelines_overview bagel).map (fun r => (r.participant_id, r.session))
        = recordKeys bagel ∧
    (get_pipelines_overview bagel).length = (recordKeys bagel).length := by
  refine ⟨overview_keys bagel, ?_⟩
  have h := congrArg List.length (overview_keys bagel)
  simpa using h

/-- Claim C4: the overview table stored by process_bagel has no two rows
sharing the same participant and session. -/
theorem C4_overview_no_duplicate_keys (contents : Option UploadedCSV)
    (filename schema : String) (pd : ParsedData)
    (hof : (process_bagel contents filename schema).overview = some pd) :
    (pd.data.map fun r => (r.participant_id, r.session)).Nodup := by
  cases contents with
  | none => simp [process_bagel] at hof
  | some csv =>
    cases hp : parse_csv_contents csv schema with
    | mk b e =>
      cases b with
      | none =>
        cases e with
        | none => simp [process_bagel, hp] at hof
        | some err => simp [process_bagel, hp] at hof
      | some bagel =>
        cases e with
        | some err => simp [process_bagel, hp] at hof
        | none =>
          simp [process_bagel, hp] at hof
          subst hof
          show (List.map (fun r => (r.participant_id, r.session))
            (get_pipelines_overview bagel)).Nodup
          rw [overview_keys]
          exact List.nodup_dedup _

/-- Witness for C4: a concrete successful imaging upload stores an
overview whose participant-session keys are duplicate-free. -/
theorem C4_witness :
    (process_bagel
        (some ⟨["participant_id", "session", "pipeline_name", "pipeline_version",
                "pipeline_complete"], exBagel⟩) "bagel.csv" "imaging").overview
      = some ⟨"imaging", get_pipelines_overview exBagel⟩ ∧
    ((get_pipelines_overview exBagel).map
        fun r => (r.participant_id, r.session)).Nodup := by
  constructor
  · decide
  · exact C4_overview_no_duplicate_keys
      (some ⟨["participant_id", "session", "pipeline_name", "pipeline_version",
              "pipeline_complete"], exBagel⟩) "bagel.csv" "imaging"
      ⟨"imaging", get_pipelines_overview exBagel⟩ (by decide)

/-- The long-format reshape of a table with duplicate-free
participant-session keys and duplicate-free pipeline columns has no
duplicate rows: one row per participant-session-pipeline-status tuple. -/
lemma transform_nodup (rows : List OverviewRow)
    (hkeys : (rows.map fun r => (r.participant_id, r.session)).Nodup)
    (hcols : ∀ r ∈ rows, (r.statuses.map Prod.fst).Nodup) :
    (transform_active_data_to_long rows).Nodup := by
  unfold transform_active_data_to_long
  rw [List.nodup_flatMap]
  constructor
  · intro r hr
    apply List.Nodup.of_map LongRow.pipeline_name
    rw [List.map_map]
    exact hcols r hr
  · have hp : rows.Pairwise fun a b =>
        (a.participant_id, a.session) ≠ (b.participant_id, b.session) :=
      List.pairwise_map.mp hkeys
    refine hp.imp ?_
    intro a b hne
    intro x hxa hxb
    rw [List.mem_map] at hxa hxb
    obtain ⟨psa, _, hxa⟩ := hxa
    obtain ⟨psb, _, hxb⟩ := hxb
    apply hne
    rw [← hxa] at hxb
    have h1 : a.participant_id = b.participant_id :=
      (congrArg LongRow.participant_id hxb).symm
    have h2 : a.session = b.session := (congrArg LongRow.session hxb).symm
    rw [h1, h2]

/-- Claim C5: for a non-empty visible table with unique participant-session
keys, the records status figure plots the group-by sizes of the long
reshape; the long reshape has exactly one (duplicate-free and complete)
row per participant-session-pipeline-status tuple of the visible table,
and every bar count is the number of long rows sharing that bar's
(pipeline_name, pipeline_complete) pair. -/
theorem C5_long_reshape_groupby_counts
    (rows : List OverviewRow) (pipes : List String) (pd : ParsedData)
    (hne : rows ≠ [])
    (hph : pd.type ≠ "phenotypic")
    (hkeys : (rows.map fun r => (r.participant_id, r.session)).Nodup)
    (hcols : ∀ r ∈ rows, (r.statuses.map Prod.fst).Nodup) :
    update_overview_status_fig_for_records (some rows) pipes pd
      = (Figure.recordsPlot (statusCounts (transform_active_data_to_long rows)),
         "block") ∧
    (transform_active_data_to_long rows).Nodup ∧
    (∀ r ∈ rows, ∀ ps ∈ r.statuses,
      ({ participant_id := r.participant_id, session := r.session,
         pipeline_name := ps.1, pipeline_complete := ps.2 } : LongRow)
        ∈ transform_active_data_to_long rows) ∧
    (∀ g n, (g, n) ∈ statusCounts (transform_active_data_to_long rows) →
      n = ((transform_active_data_to_long rows).filter
            fun lr => (lr.pipeline_name, lr.pipeline_complete) == g).length) := by
  refine ⟨?_, transform_nodup rows hkeys hcols, ?_, ?_⟩
  · have hbeq : (pd.type == "phenotypic") = false := by
      rw [beq_eq_false_iff_ne]
      exact hph
    have hemp : rows.isEmpty = false := by
      cases rows with
      | nil => exact absurd rfl hne
      | cons a l => rfl
    simp [update_overview_status_fig_for_records, hbeq, hemp]
  · intro r hr ps hps
    unfold transform_active_data_to_long
    rw [List.mem_flatMap]
    exact ⟨r, hr, List.mem_map.mpr ⟨ps, hps, rfl⟩⟩
  · intro g n hmem
    unfold statusCounts at hmem
    rw [List.mem_map] at hmem
    obtain ⟨g2, _, heq⟩ := hmem
    obtain ⟨h1, h2⟩ := Prod.mk.injEq .. ▸ heq
    rw [← h1, ← h2]

/-- Witness for C5: the concrete two-row visible table yields the records
plot of its group-by counts and a duplicate-free long reshape. -/
theorem C5_witness :
    update_overview_status_fig_for_records (some [exRowA, exRowC]) ["fmriprep"]
        ⟨"imaging", [exRowA, exRowC]⟩
      = (Figure.recordsPlot
          (statusCounts (transform_active_data_to_long [exRowA, exRowC])),
         "block") ∧
    (transform_active_data_to_long [exRowA, exRowC]).Nodup :=
  ⟨(C5_long_reshape_groupby_counts [exRowA, exRowC] ["fmriprep"]
      ⟨"imaging", [exRowA, exRowC]⟩ (by decide) (by decide) (by decide)
      (by decide)).1,
   (C5_long_reshape_groupby_counts [exRowA, exRowC] ["fmriprep"]
      ⟨"imaging", [exRowA, exRowC]⟩ (by decide) (by decide) (by decide)
      (by decide)).2.1⟩

/-- Claim C6: with existing non-empty columns, the displayed counts are
the numbers of distinct participant keys and distinct participant-session
record keys of the visible rows; and when no filter is applied (no session
selected, all pipeline statuses None), the participant count taken over
the displayed table equals the participant count of the whole stored
dataset. -/
theorem C6_matching_row_counts
    (cols : List ColumnDescriptor) (virtual_data : List OverviewRow)
    (hcols : cols ≠ []) :
    update_matching_rows (some cols) virtual_data
      = ("Participants matching filter: " ++
           toString ((virtual_data.map fun r => r.participant_id).toFinset.card),
         "Records matching filter: " ++
           toString ((virtual_data.map
             fun r => (r.participant_id, r.session)).toFinset.card)) ∧
    (∀ (pd : ParsedData) (op : String) (status_values : List (Option String))
        (pkeys : List String) (tbl : List OverviewRow),
      (∀ v ∈ status_values, v = none) →
      (update_outputs (some pd) [] op status_values pkeys).2 = some tbl →
      count_unique_subjects tbl = count_unique_subjects pd.data) := by
  constructor
  · cases cols with
    | nil => exact absurd rfl hcols
    | cons c cs =>
      unfold update_matching_rows count_unique_subjects count_unique_records
      rw [List.card_toFinset, List.card_toFinset]
  · intro pd op status_values pkeys tbl hnone h2
    rw [update_outputs_no_filter pd op status_values pkeys hnone] at h2
    have : pd.data = tbl := by
      simpa using h2
    rw [this]

/-- Witness for C6: the concrete three-row visible table shows 2 distinct
participants and 3 distinct records. -/
theorem C6_witness :
    update_matching_rows
        (some [{ name := "participant_id", id := "participant_id", hideable := true }])
        [exRowA, exRowB, exRowC]
      = ("Participants matching filter: " ++
           toString (([exRowA, exRowB, exRowC].map
             fun r => r.participant_id).toFinset.card),
         "Records matching filter: " ++
           toString (([exRowA, exRowB, exRowC].map
             fun r => (r.participant_id, r.session)).toFinset.card)) :=
  (C6_matching_row_counts
    [{ name := "participant_id", id := "participant_id", hideable := true }]
    [exRowA, exRowB, exRowC] (by decide)).1

/-- Claim C7: process_bagel's parsing validates the required columns of
the selected schema; on any parse error it reports a user-facing error,
stores None in the sessions, overview and pipelines stores and disables
CSV export; each store is populated (and export enabled) exactly when
parsing succeeds without error. -/
theorem C7_upload_error_handling (csv : UploadedCSV) (filename schema : String) :
    ((parse_csv_contents csv schema).2 = none ↔
      ∀ c ∈ requiredColumns schema, c ∈ csv.columns) ∧
    (∀ err, (parse_csv_contents csv schema).2 = some err →
      process_bagel (some csv) filename schema =
        { filename := some filename, sessions := none, overview := none,
          pipelines := none,
          upload_message := some ("Error: " ++ err ++ " Please try again."),
          export_format := some "none" }) ∧
    ((process_bagel (some csv) filename schema).overview.isSome ↔
      (parse_csv_contents csv schema).2 = none) ∧
    ((process_bagel (some csv) filename schema).sessions.isSome ↔
      (parse_csv_contents csv schema).2 = none) ∧
    ((process_bagel (some csv) filename schema).pipelines.isSome ↔
      (parse_csv_contents csv schema).2 = none) ∧
    ((process_bagel (some csv) filename schema).export_format = some "csv" ↔
      (parse_csv_contents csv schema).2 = none) ∧
    ((process_bagel (some csv) filename schema).upload_message = none ↔
      (parse_csv_contents csv schema).2 = none) := by
  by_cases hreq : ((requiredColumns schema).all fun c => csv.columns.contains c) = true
  · have hparse : parse_csv_contents csv schema = (some csv.records, none) := by
      unfold parse_csv_contents
      rw [if_pos hreq]
    rw [List.all_eq_true] at hreq
    refine ⟨?_, ?_, ?_, ?_, ?_, ?_, ?_⟩ <;>
      simp [process_bagel, hparse]
    intro c hc
    have := hreq c hc
    simpa using this
  · have hparse : parse_csv_contents csv schema
        = (none, some "The selected file is missing required columns.") := by
      unfold parse_csv_contents
      rw [if_neg hreq]
    have hall : ((requiredColumns schema).all fun c => csv.columns.contains c)
        = false := by
      cases h : ((requiredColumns schema).all fun c => csv.columns.contains c) with
      | false => rfl
      | true => exact absurd h hreq
    rw [List.all_eq_false] at hall
    obtain ⟨c, hc, hnc⟩ := hall
    refine ⟨?_, ?_, ?_, ?_, ?_, ?_, ?_⟩ <;>
      simp [process_bagel, hparse]
    exact ⟨c, hc, by simpa using hnc⟩

/-- Witness for C7: uploading a CSV missing the imaging schema columns
stores nothing, disables export and reports the error. -/
theorem C7_witness :
    process_bagel (some ⟨["participant_id"], exBagel⟩) "bad.csv" "imaging"
      = { filename := some "bad.csv", sessions := none, overview := none,
          pipelines := none,
          upload_message := some ("Error: " ++
            "The selected file is missing required columns." ++
            " Please try again."),
          export_format := some "none" } :=
  (C7_upload_error_handling ⟨["participant_id"], exBagel⟩ "bad.csv" "imaging").2.1
    "The selected file is missing required columns." (by decide)

/-- Claim C8: the core parsing/overview/filter/count/reshape operations
are deterministic functions of their inputs alone — two invocations with
equal inputs produce equal outputs. -/
theorem C8_core_operations_deterministic
    (csv1 csv2 : UploadedCSV) (schema1 schema2 : String) (b1 b2 : Bagel)
    (data1 data2 : List OverviewRow) (sv1 sv2 : List String) (op1 op2 : String)
    (f1 f2 : List (String × Option String)) (rows1 rows2 : List OverviewRow)
    (hcsv : csv1 = csv2) (hschema : schema1 = schema2) (hb : b1 = b2)
    (hdata : data1 = data2) (hsv : sv1 = sv2) (hop : op1 = op2) (hf : f1 = f2)
    (hrows : rows1 = rows2) :
    parse_csv_contents csv1 schema1 = parse_csv_contents csv2 schema2 ∧
    get_pipelines_overview b1 = get_pipelines_overview b2 ∧
    filter_records data1 sv1 op1 f1 = filter_records data2 sv2 op2 f2 ∧
    count_unique_subjects rows1 = count_unique_subjects rows2 ∧
    count_unique_records rows1 = count_unique_records rows2 ∧
    transform_active_data_to_long rows1 = transform_active_data_to_long rows2 := by
  subst hcsv hschema hb hdata hsv hop hf hrows
  exact ⟨rfl, rfl, rfl, rfl, rfl, rfl⟩

/-- Witness for C8: two runs of the filter on the same concrete inputs
coincide. -/
theorem C8_witness :
    filter_records [exRowA, exRowB] ["s1"] "OR" [("fmriprep", some "SUCCESS")]
      = filter_records [exRowA, exRowB] ["s1"] "OR" [("fmriprep", some "SUCCESS")] :=
  (C8_core_operations_deterministic ⟨[], []⟩ ⟨[], []⟩ "imaging" "imaging"
    exBagel exBagel [exRowA, exRowB] [exRowA, exRowB] ["s1"] ["s1"] "OR" "OR"
    [("fmriprep", some "SUCCESS")] [("fmriprep", some "SUCCESS")]
    [exRowA] [exRowA] rfl rfl rfl rfl rfl rfl rfl rfl).2.2.1

/-- Claim C9: with no session selected and every pipeline status dropdown
None, update_outputs skips the filter and returns the stored overview data
unchanged, with one hideable column descriptor per stored column. -/
theorem C9_empty_filter_identity (pd : ParsedData) (op : String)
    (status_values : List (Option String)) (pkeys : List String)
    (hstat : ∀ v ∈ status_values, v = none) :
    update_outputs (some pd) [] op status_values pkeys
      = (some ((dfColumns pd.data).map fun i =>
          ({ name := i, id := i, hideable := true } : ColumnDescriptor)),
         some pd.data) ∧
    (∀ cols, (update_outputs (some pd) [] op status_values pkeys).1 = some cols →
      cols.map (fun c => c.name) = dfColumns pd.data) := by
  have h := update_outputs_no_filter pd op status_values pkeys hstat
  refine ⟨h, ?_⟩
  intro cols hcols
  rw [h] at hcols
  have : (dfColumns pd.data).map (fun i =>
      ({ name := i, id := i, hideable := true } : ColumnDescriptor)) = cols := by
    simpa using hcols
  rw [← this, List.map_map]
  exact List.map_id'' (fun i => rfl) _

/-- Witness for C9: a concrete overview table passes through the empty
filter unchanged. -/
theorem C9_witness :
    update_outputs (some ⟨"imaging", [exRowA, exRowB]⟩) [] "AND" [none] ["fmriprep"]
      = (some ((dfColumns [exRowA, exRowB]).map fun i =>
          ({ name := i, id := i, hideable := true } : ColumnDescriptor)),
         some [exRowA, exRowB]) :=
  (C9_empty_filter_identity ⟨"imaging", [exRowA, exRowB]⟩ "AND" [none] ["fmriprep"]
    (by decide)).1

/-- Claim C10: for a phenotypic upload no pipeline status dropdowns are
generated, no native filters are disabled, and both status figures are
hidden with empty figure properties; dropdowns and status figures can only
be produced for a non-phenotypic (i.e. imaging) upload type. -/
theorem C10_phenotypic_hides_pipeline_ui
    (pipes : Option (List String)) (pd : ParsedData) (session_list : List String)
    (data : Option (List OverviewRow)) (pdict : List String)
    (hph : pd.type = "phenotypic") :
    create_pipeline_status_dropdowns pipes pd = ([], none) ∧
    generate_overview_status_fig_for_participants (some pd) session_list
      = (Figure.empty, "none", "none") ∧
    update_overview_status_fig_for_records data pdict pd = (Figure.empty, "none") ∧
    (∀ (pipes2 : Option (List String)) (pd2 : ParsedData),
      (create_pipeline_status_dropdowns pipes2 pd2).1 ≠ [] →
        pd2.type ≠ "phenotypic") ∧
    (∀ (pd2 : ParsedData) (sl : List String),
      (generate_overview_status_fig_for_participants (some pd2) sl).1
          ≠ Figure.empty → pd2.type ≠ "phenotypic") ∧
    (∀ (d2 : Option (List OverviewRow)) (pk2 : List String) (pd2 : ParsedData),
      (update_overview_status_fig_for_records d2 pk2 pd2).1 ≠ Figure.empty →
        pd2.type ≠ "phenotypic") := by
  refine ⟨?_, ?_, ?_, ?_, ?_, ?_⟩
  · cases pipes with
    | none => rfl
    | some pls => simp [create_pipeline_status_dropdowns, hph]
  · simp [generate_overview_status_fig_for_participants, hph]
  · cases data with
    | none => rfl
    | some rows => simp [update_overview_status_fig_for_records, hph]
  · intro pipes2 pd2 hne hty
    apply hne
    cases pipes2 with
    | none => rfl
    | some pls => simp [create_pipeline_status_dropdowns, hty]
  · intro pd2 sl hne hty
    apply hne
    simp [generate_overview_status_fig_for_participants, hty]
  · intro d2 pk2 pd2 hne hty
    apply hne
    cases d2 with
    | none => rfl
    | some rows => simp [update_overview_status_fig_for_records, hty]

/-- Witness for C10: a concrete phenotypic upload shows no dropdowns and
hides both figures. -/
theorem C10_witness :
    create_pipeline_status_dropdowns (some ["fmriprep"]) ⟨"phenotypic", [exRowA]⟩
        = ([], none) ∧
    generate_overview_status_fig_for_participants
        (some ⟨"phenotypic", [exRowA]⟩) ["s1"] = (Figure.empty, "none", "none") ∧
    update_overview_status_fig_for_records (some [exRowA]) ["fmriprep"]
        ⟨"phenotypic", [exRowA]⟩ = (Figure.empty, "none") := by
  have h := C10_phenotypic_hides_pipeline_ui (some ["fmriprep"])
    ⟨"phenotypic", [exRowA]⟩ ["s1"] (some [exRowA]) ["fmriprep"] rfl
  exact ⟨h.1, h.2.1, h.2.2.1⟩
